import Mathlib

/-!
Shallow embedding of `app/models.py` of the talks web application, together
with proofs of the specification claims about its data model and operations.

Conventions of the embedding:
* Each SQLAlchemy model class becomes a Lean structure; a nullable column (or a
  Python attribute that may be `None`) becomes an `Option`; `DateTime` values
  become `Nat` timestamps (seconds); the database session becomes an explicit
  `DB` record of row lists.
* Rendered HTML is represented as a token stream (`HtmlTok`) rather than a raw
  string, so that the set of tags appearing in a document is meaningful.
* Python truthiness tests (`if id:`, `if not email:`, `x or y`) are embedded by
  explicit helper functions (`pyTruthyNat`, `pyTruthyStr`, `pyOrStr`).
* Third-party library calls (werkzeug password hashing, itsdangerous signed
  serializer, bleach, markdown, hashlib.md5) are modelled by executable Lean
  functions faithful to the library contracts; `markdown` and `md5` are taken
  as parameters (arbitrary functions) wherever the claims do not depend on
  their internals.
-/

/-! ## Python truthiness helpers -/

/-- Truthiness of an optional integer: `None` and `0` are falsy. -/
def pyTruthyNat : Option Nat → Bool
  | none => false
  | some n => n != 0

/-- Truthiness of an optional string: `None` and the empty string are falsy. -/
def pyTruthyStr : Option String → Bool
  | none => false
  | some s => s != ""

/-- Python `a or b` on optional strings (`None` and `""` are falsy). -/
def pyOrStr (a b : Option String) : Option String :=
  if pyTruthyStr a then a else b

/-! ## HTML token stream -/

/-- A token of a rendered HTML document: an opening tag, a closing tag, or a
run of text. -/
inductive HtmlTok where
  | openTag (name : String)
  | closeTag (name : String)
  | text (s : String)
deriving DecidableEq, Repr

/-- The tag names occurring in a document. -/
def tagNames (doc : List HtmlTok) : List String :=
  doc.filterMap fun tok =>
    match tok with
    | .openTag n => some n
    | .closeTag n => some n
    | .text _ => none

/-- Modelled from the bleach library contract: `bleach.clean(html, tags,
strip=True)` removes every tag that is not in the allowed list, keeping the
enclosed text (`strip=True` drops the markup instead of escaping it). -/
def bleachClean (tags : List String) (doc : List HtmlTok) : List HtmlTok :=
  doc.filter fun tok =>
    match tok with
    | .openTag n => tags.contains n
    | .closeTag n => tags.contains n
    | .text _ => true

/-- Modelled from the bleach library contract: `bleach.linkify` wraps
URL-looking text runs in anchor (`a`) tags and leaves all other tokens
unchanged. -/
def bleachLinkify (doc : List HtmlTok) : List HtmlTok :=
  doc.flatMap fun tok =>
    match tok with
    | .text s =>
        if s.startsWith ("http://") || s.startsWith ("https://") then
          [.openTag ("a"), .text s, .closeTag ("a")]
        else
          [.text s]
    | t => [t]

/-! ## Data model -/

/-- Row of the `users` table. -/
structure User where
  id : Nat
  email : Option String := none
  username : Option String := none
  is_admin : Option Bool := none
  password_hash : Option String := none
  name : Option String := none
  location : Option String := none
  bio : Option String := none
  member_since : Option Nat := none
  avatar_hash : Option String := none
deriving DecidableEq, Repr

/-- Row of the `talks` table. -/
structure Talk where
  id : Nat
  title : Option String := none
  description : Option String := none
  slides : Option String := none
  video : Option String := none
  user_id : Option Nat := none
  venue : Option String := none
  venue_url : Option String := none
  date : Option Nat := none
deriving DecidableEq, Repr

/-- Row of the `comments` table; `body_html` holds the rendered document as a
token stream. -/
structure Comment where
  id : Nat
  body : Option String := none
  body_html : Option (List HtmlTok) := none
  timestamp : Option Nat := none
  author_id : Option Nat := none
  author_name : Option String := none
  author_email : Option String := none
  notify : Option Bool := some true
  approved : Option Bool := some false
  talk_id : Option Nat := none
deriving DecidableEq, Repr

/-- Row of the `pending_emails` table. -/
structure PendingEmail where
  id : Nat
  name : Option String := none
  email : Option String := none
  subject : Option String := none
  body_text : Option String := none
  body_html : Option String := none
  talk_id : Option Nat := none
  timestamp : Option Nat := none
deriving DecidableEq, Repr

/-- The database: one list of rows per table. -/
structure DB where
  users : List User := []
  talks : List Talk := []
  comments : List Comment := []
  pending_emails : List PendingEmail := []
deriving DecidableEq, Repr

/-- `User.query.get(id)`: primary-key lookup. -/
def DB.getUser (db : DB) (id : Nat) : Option User :=
  db.users.find? fun u => u.id == id

/-- `Talk.query.get(id)`: primary-key lookup. -/
def DB.getTalk (db : DB) (id : Nat) : Option Talk :=
  db.talks.find? fun t => t.id == id

/-- The `Comment.author` relationship: the user row referenced by
`author_id`, or `None`. -/
def Comment.author (db : DB) (c : Comment) : Option User :=
  match c.author_id with
  | none => none
  | some i => db.getUser i

/-- The `Comment.talk` relationship. -/
def Comment.talk (db : DB) (c : Comment) : Option Talk :=
  match c.talk_id with
  | none => none
  | some i => db.getTalk i

/-- The `Talk.author` relationship. -/
def Talk.author (db : DB) (t : Talk) : Option User :=
  match t.user_id with
  | none => none
  | some i => db.getUser i

/-- The `Talk.comments` relationship: all comments whose `talk_id` references
this talk. -/
def Talk.commentRows (db : DB) (t : Talk) : List Comment :=
  db.comments.filter fun c => c.talk_id == some t.id

/-- Well-formedness of a database state that the schema and the engine
guarantee: primary keys are unique and positive (autoincrement starts at 1). -/
structure DBWf (db : DB) : Prop where
  userIdsNodup : (db.users.map User.id).Nodup
  userIdsPos : ∀ u ∈ db.users, 0 < u.id
  talkIdsNodup : (db.talks.map Talk.id).Nodup
  talkIdsPos : ∀ t ∈ db.talks, 0 < t.id

/-! ## Comment body sanitization (`Comment.on_changed_body`) -/

/-- The allowed-tags list of `Comment.on_changed_body`. -/
def allowed_tags : List String :=
  ["a", "abbr", "acronym", "b", "blockquote", "code", "em",
   "i", "li", "ol", "pre", "strong", "ul", "h1", "h2", "h3", "p"]

/-- `Comment.on_changed_body(target, value, old_value, initiator)`: renders the
new body as markdown (the renderer `markdownRender` is a parameter, any
function from source text to an HTML token stream), cleans it with bleach
against `allowed_tags` with `strip=True`, linkifies the result, and stores it
in `body_html`. -/
def Comment.on_changed_body (markdownRender : String → List HtmlTok)
    (target : Comment) (value : String) : Comment :=
  { target with
    body_html :=
      some (bleachLinkify (bleachClean allowed_tags (markdownRender value))) }

/-- Writing the `body` attribute: SQLAlchemy fires the listener registered by
`db.event.listen(Comment.body, 'set', Comment.on_changed_body)` whenever the
attribute is set, so every write of `body` also recomputes `body_html`. -/
def Comment.setBody (markdownRender : String → List HtmlTok)
    (c : Comment) (v : String) : Comment :=
  { Comment.on_changed_body markdownRender c v with body := some v }

/-- Constructing a comment with a `body=...` keyword argument: the attribute
set inside `__init__` fires the same listener. A construction without a body
leaves the row as given. -/
def Comment.new (markdownRender : String → List HtmlTok)
    (base : Comment) (bodyKw : Option String) : Comment :=
  match bodyKw with
  | some v => Comment.setBody markdownRender base v
  | none => base

/-! ## Passwords (werkzeug model) -/

/-- The digest used by the werkzeug model: a fixed-width per-character
scramble. What the claims use is that the digest is deterministic and
length-preserving. -/
def scramblePassword (p : String) : String :=
  String.mk (p.data.map fun c => Char.ofNat ((c.toNat + 1) % 1114112))

/-- Modelled from the werkzeug contract: `generate_password_hash` returns a
string in `method:digest` format containing a digest of the password, never
the password itself. -/
def generate_password_hash (p : String) : String :=
  "pbkdf2:sha256:" ++ scramblePassword p

/-- Modelled from the werkzeug contract: `check_password_hash(h, p)` succeeds
exactly when `h` is the stored hash of `p`. -/
def check_password_hash (h p : String) : Bool :=
  h == generate_password_hash p

/-- Python exception values surfaced by the embedding. -/
inductive PyExc where
  | attributeError (msg : String)
deriving DecidableEq, Repr

/-- The `User.password` property getter: always raises `AttributeError`. -/
def User.password (_u : User) : Except PyExc String :=
  .error (.attributeError ("password is not a readable attribute"))

/-- The `User.password` property setter: stores the werkzeug hash of the new
password in `password_hash`. -/
def User.setPassword (u : User) (password : String) : User :=
  { u with password_hash := some (generate_password_hash password) }

/-- `User.verify_password`: checks the candidate against the stored hash (an
unset hash verifies nothing). -/
def User.verify_password (u : User) (password : String) : Bool :=
  match u.password_hash with
  | some h => check_password_hash h password
  | none => false

/-! ## Avatar hash and gravatar URL -/

/-- `User.__init__`: after the base constructor has populated the row from the
keyword arguments, if `email` is not `None` and `avatar_hash` is `None`, set
`avatar_hash` to the MD5 hex digest of the email (`md5hex` is a parameter
standing for `hashlib.md5(..).hexdigest()`). -/
def User.init (md5hex : String → String) (u : User) : User :=
  match u.email, u.avatar_hash with
  | some e, none => { u with avatar_hash := some (md5hex e) }
  | _, _ => u

/-- `User.gravatar`: picks the scheme from `request.is_secure`, uses
`avatar_hash or md5(email)` as the hash (Python `or`: an unset or empty
`avatar_hash` falls back to hashing the email; a `None` email then raises,
embedded as `none`), and formats the URL. -/
def User.gravatar (md5hex : String → String) (isSecure : Bool) (u : User)
    (size : Nat := 100) (defaultIcon : String := "identicon")
    (rating : String := "g") : Option String :=
  let url := if isSecure then "https://secure.gravatar.com/avatar"
             else "http://www.gravatar.com/avatar"
  let hashOpt : Option String := pyOrStr u.avatar_hash (u.email.map md5hex)
  hashOpt.map fun h =>
    url ++ "/" ++ h ++ "?s=" ++ toString size ++ "&d=" ++ defaultIcon ++
      "&r=" ++ rating

/-! ## Signed, time-limited tokens (itsdangerous model) -/

/-- The JSON payload carried by a token; absent keys are `none` (`data.get`
returns `None` for them). Both payload shapes of the application (`user` for
API tokens, `talk`/`email` for unsubscribe tokens) share this type. -/
structure TokenPayload where
  user : Option Nat := none
  talk : Option Nat := none
  email : Option String := none
deriving DecidableEq, Repr

/-- A cheap executable string digest used by the serializer model. -/
def strHash (s : String) : Nat :=
  s.data.foldl (fun a c => a * 131 + c.toNat + 7) 11

/-- Encoding of a payload for signing. -/
def TokenPayload.encode (p : TokenPayload) : String :=
  let natPart : Option Nat → String := fun o =>
    match o with
    | none => "-"
    | some n => toString n
  let strPart : Option String → String := fun o =>
    match o with
    | none => "-"
    | some s => s
  natPart p.user ++ "|" ++ natPart p.talk ++ "|" ++ strPart p.email

/-- The MAC over payload and expiry under a secret key. -/
def macOf (secret : String) (p : TokenPayload) (expiresAt : Nat) : Nat :=
  strHash (secret ++ "#" ++ p.encode ++ "#" ++ toString expiresAt)

/-- Modelled from the itsdangerous contract: a token produced by
`TimedJSONWebSignatureSerializer` carries its payload, its expiry time, and a
signature over both under the secret key. -/
structure SignedToken where
  data : TokenPayload
  expiresAt : Nat
  mac : Nat
deriving DecidableEq, Repr

/-- `Serializer(secret, expiration).dumps(payload)` at current time `now`. -/
def serializerDumps (secret : String) (now expiration : Nat)
    (p : TokenPayload) : SignedToken :=
  { data := p, expiresAt := now + expiration,
    mac := macOf secret p (now + expiration) }

/-- `Serializer(secret).loads(token)` at current time `now`: returns the
payload when the signature verifies and the token has not expired, and fails
(`none`, a raised `BadSignature`/`SignatureExpired` in Python) otherwise. -/
def serializerLoads (secret : String) (now : Nat)
    (tok : SignedToken) : Option TokenPayload :=
  if tok.mac = macOf secret tok.data tok.expiresAt ∧ now ≤ tok.expiresAt then
    some tok.data
  else
    none

/-! ## API tokens (`User.get_api_token` / `User.validate_api_token`) -/

/-- `User.get_api_token(expiration=300)`: dumps `dict(user=self.id)` with the
application secret and the given expiration, at current time `now`. -/
def User.get_api_token (secret : String) (now : Nat) (u : User)
    (expiration : Nat := 300) : SignedToken :=
  serializerDumps secret now expiration { user := some u.id }

/-- `User.validate_api_token(token)`: loads the token (any failure yields
`None`), reads `data.get('user')`, and — if that id is truthy — looks the user
up by primary key. -/
def User.validate_api_token (db : DB) (secret : String) (now : Nat)
    (token : SignedToken) : Option User :=
  match serializerLoads secret now token with
  | none => none
  | some data =>
      match data.user with
      | some i => if i != 0 then db.getUser i else none
      | none => none

/-! ## Unsubscribe tokens (`Talk.get_unsubscribe_token` / `Talk.unsubscribe_user`) -/

/-- `Talk.get_unsubscribe_token(email, expiration=604800)`: dumps
`dict(talk=self.id, email=email)`. -/
def Talk.get_unsubscribe_token (secret : String) (now : Nat) (t : Talk)
    (email : String) (expiration : Nat := 604800) : SignedToken :=
  serializerDumps secret now expiration { talk := some t.id, email := some email }

/-- `Talk.unsubscribe_user(token)`: loads the token (returning
`(None, None)` on any failure), rejects falsy `talk`/`email` payload entries,
looks the talk up by primary key, and on success sets `notify=False` on every
comment of that talk whose `author_email` equals the payload email, committing
the session; returns the affected `(talk, email)` pair and the new database
state. -/
def Talk.unsubscribe_user (db : DB) (secret : String) (now : Nat)
    (token : SignedToken) : (Option Talk × Option String) × DB :=
  match serializerLoads secret now token with
  | none => ((none, none), db)
  | some data =>
      let id := data.talk
      let email := data.email
      if ¬ pyTruthyNat id ∨ ¬ pyTruthyStr email then ((none, none), db)
      else
        match db.getTalk (id.getD 0) with
        | none => ((none, none), db)
        | some talk =>
            let comments := db.comments.map fun c =>
              if c.talk_id = some talk.id ∧ c.author_email = email then
                { c with notify := some false }
              else c
            ((some talk, email), { db with comments := comments })

/-! ## Moderation queries -/

/-- `Comment.for_moderation()`: all comments with `approved == 0` (SQL: a
`NULL` approved flag does not match). -/
def Comment.for_moderation (db : DB) : List Comment :=
  db.comments.filter fun c => c.approved == some false

/-- `Talk.approved_comments()`: the comments of this talk with
`approved=True`. -/
def Talk.approved_comments (db : DB) (t : Talk) : List Comment :=
  (t.commentRows db).filter fun c => c.approved == some true

/-- `User.for_moderation(admin=False)`: for an admin caller with the admin
flag set, all unapproved comments; otherwise the join of comments with talks
on `Comment.talk_id == Talk.id`, filtered to talks authored by this user and
to `Comment.approved == 0`, projected back to the comment rows. -/
def User.for_moderation (db : DB) (u : User) (admin : Bool := false) :
    List Comment :=
  if admin && (u.is_admin == some true) then Comment.for_moderation db
  else
    (((db.comments.flatMap fun c =>
        db.talks.filterMap fun t =>
          if c.talk_id = some t.id then some (c, t) else none).filter
      fun ct => ct.2.user_id == some u.id).filter
      fun ct => ct.1.approved == some false).map Prod.fst

/-! ## Pending email queue -/

/-- `PendingEmail.already_in_queue(email, talk)`: counts the rows with this
talk id and email and tests the count against zero. -/
def PendingEmail.already_in_queue (db : DB) (email : String) (talk : Talk) :
    Bool :=
  let pending_email_count :=
    ((db.pending_emails.filter fun p => p.talk_id == some talk.id).filter
      fun p => p.email == some email).length
  pending_email_count > 0

/-- `PendingEmail.remove(email)`: deletes every queued row with this email. -/
def PendingEmail.remove (db : DB) (email : String) : DB :=
  { db with pending_emails := db.pending_emails.filter fun p => ¬ p.email == some email }

/-! ## Notification list (`Comment.notification_list`) -/

/-- Python dict assignment `d[k] = v`: overwrite the value when the key is
present (keeping its position), append the new entry otherwise. -/
def dictSet (d : List (Option String × Option String))
    (k v : Option String) : List (Option String × Option String) :=
  if d.any fun e => e.1 == k then
    d.map fun e => if e.1 == k then (k, v) else e
  else
    d ++ [(k, v)]

/-- The body of the `notification_list` loop for one comment of the talk:
skip the comment unless its `notify` flag is truthy and it is not authored by
the talk's author (Python `==` on ORM rows, `None == None` included); then a
registered commenter other than `self`'s author is recorded under the account
email with value `name or username`, and an anonymous commenter whose
`author_email` differs from `self`'s is recorded under `author_email` with
value `author_name`. -/
def notifStep (db : DB) (self : Comment)
    (result : List (Option String × Option String)) (comment : Comment) :
    List (Option String × Option String) :=
  if comment.notify = some true ∧
     comment.author db ≠ ((comment.talk db).bind fun tt => tt.author db) then
    match comment.author db with
    | some a =>
        if self.author db ≠ some a then
          dictSet result a.email (pyOrStr a.name a.username)
        else result
    | none =>
        if self.author_email ≠ comment.author_email then
          dictSet result comment.author_email comment.author_name
        else result
  else result

/-- `Comment.notification_list()`: walks the comments of this comment's talk,
accumulating a dict keyed by email via `notifStep`, and returns its
entries. -/
def Comment.notification_list (db : DB) (self : Comment) :
    List (Option String × Option String) :=
  match self.talk db with
  | none => []
  | some t => (t.commentRows db).foldl (notifStep db self) []

/-! ## Schema constraints on users -/

/-- Modelled from the schema declarations
`email = db.Column(..., nullable=False, unique=True)` and
`username = db.Column(..., nullable=False, unique=True)` (and the integer
primary key): the database engine rejects an insert whose email or username is
`NULL` or collides with an existing row (or whose primary key collides). -/
def insertUser (users : List User) (u : User) : Option (List User) :=
  if u.email = none ∨ u.username = none then none
  else if users.any fun v =>
      v.email == u.email || v.username == u.username || v.id == u.id then none
  else some (users ++ [u])

/-- The user tables reachable through constraint-checked inserts from an empty
table. -/
inductive UsersReachable : List User → Prop where
  | nil : UsersReachable []
  | insert {us : List User} {u : User} {us' : List User} :
      UsersReachable us → insertUser us u = some us' → UsersReachable us'

/-! ## Helper lemmas -/

theorem scramblePassword_length (p : String) :
    (scramblePassword p).length = p.length := by
  show (p.data.map _).length = p.data.length
  exact List.length_map _ _

theorem generate_password_hash_length (p : String) :
    (generate_password_hash p).length = 14 + p.length := by
  have h14 : ("pbkdf2:sha256:").length = 14 := rfl
  rw [generate_password_hash, String.length_append, scramblePassword_length, h14]

theorem generate_password_hash_ne (p : String) :
    generate_password_hash p ≠ p := by
  intro h
  have h2 := congrArg String.length h
  rw [generate_password_hash_length] at h2
  omega

/-! ## Claims -/

/-- Claim C10: reading the `password` attribute of any User always raises
`AttributeError` — also right after the password has been set — so the
attribute is write-only and never yields the plaintext. -/
theorem c10_password_not_readable :
    ∀ (u : User) (p : String),
      u.password =
        Except.error (.attributeError ("password is not a readable attribute")) ∧
      (u.setPassword p).password =
        Except.error (.attributeError ("password is not a readable attribute")) := by
  intro u p
  exact ⟨rfl, rfl⟩

/-- Claim C7: after assigning a password, `verify_password` accepts exactly
that password's hash check, and `password_hash` holds the werkzeug hash of the
password, which is never the plaintext itself. -/
theorem c7_password_set_verify :
    ∀ (u : User) (p : String),
      (u.setPassword p).verify_password p = true ∧
      (u.setPassword p).password_hash = some (generate_password_hash p) ∧
      (u.setPassword p).password_hash ≠ some p := by
  intro u p
  refine ⟨?_, rfl, ?_⟩
  · simp [User.verify_password, User.setPassword, check_password_hash]
  · intro h
    simp only [User.setPassword, Option.some.injEq] at h
    exact generate_password_hash_ne p h

theorem tagNames_bleachClean_subset (tags : List String) (doc : List HtmlTok) :
    ∀ t ∈ tagNames (bleachClean tags doc), t ∈ tags := by
  intro t ht
  simp only [tagNames, bleachClean, List.mem_filterMap, List.mem_filter] at ht
  obtain ⟨tok, ⟨-, hkeep⟩, hname⟩ := ht
  cases tok with
  | openTag n =>
      simp only [Option.some.injEq] at hname
      subst hname
      simpa using hkeep
  | closeTag n =>
      simp only [Option.some.injEq] at hname
      subst hname
      simpa using hkeep
  | text s => simp at hname

theorem tagNames_bleachLinkify (doc : List HtmlTok) :
    ∀ t ∈ tagNames (bleachLinkify doc), t ∈ tagNames doc ∨ t = "a" := by
  intro t ht
  simp only [tagNames, bleachLinkify, List.mem_filterMap, List.mem_flatMap] at ht
  obtain ⟨tok, ⟨src, hsrc, htok⟩, hname⟩ := ht
  cases src with
  | openTag n =>
      simp only [List.mem_singleton] at htok
      subst htok
      simp only [Option.some.injEq] at hname
      refine Or.inl ?_
      simp only [tagNames, List.mem_filterMap]
      exact ⟨.openTag n, hsrc, by simp [hname]⟩
  | closeTag n =>
      simp only [List.mem_singleton] at htok
      subst htok
      simp only [Option.some.injEq] at hname
      refine Or.inl ?_
      simp only [tagNames, List.mem_filterMap]
      exact ⟨.closeTag n, hsrc, by simp [hname]⟩
  | text s =>
      dsimp only at htok
      by_cases hurl : (s.startsWith ("http://") || s.startsWith ("https://")) = true
      · rw [if_pos hurl] at htok
        simp only [List.mem_cons, List.not_mem_nil, or_false] at htok
        rcases htok with rfl | rfl | rfl
        · simp only [Option.some.injEq] at hname
          exact Or.inr hname.symm
        · simp at hname
        · simp only [Option.some.injEq] at hname
          exact Or.inr hname.symm
      · rw [if_neg hurl] at htok
        simp only [List.mem_singleton] at htok
        subst htok
        simp at hname

/-- Claim C1: whenever a comment's `body` is written — on creation with a
`body` keyword or on a later attribute update — the listener stores in
`body_html` exactly the sanitization of the new body (markdown rendering,
bleach-clean against the allowed tag list with `strip=True`, then linkify),
and the stored document contains no tag outside the allowed list, whatever
the markdown renderer produced. -/
theorem c1_body_html_sanitized :
    ∀ (markdownRender : String → List HtmlTok) (c : Comment) (v : String),
      (Comment.setBody markdownRender c v).body = some v ∧
      (Comment.setBody markdownRender c v).body_html =
        some (bleachLinkify (bleachClean allowed_tags (markdownRender v))) ∧
      (Comment.new markdownRender c (some v)).body_html =
        some (bleachLinkify (bleachClean allowed_tags (markdownRender v))) ∧
      ∀ t ∈ tagNames ((Comment.setBody markdownRender c v).body_html.getD []),
        t ∈ allowed_tags := by
  intro markdownRender c v
  refine ⟨rfl, rfl, rfl, ?_⟩
  intro t ht
  have ht' : t ∈ tagNames (bleachLinkify (bleachClean allowed_tags (markdownRender v))) := ht
  rcases tagNames_bleachLinkify _ t ht' with h | h
  · exact tagNames_bleachClean_subset _ _ t h
  · subst h
    decide

/-- Witness for C1 at a concrete renderer emitting a disallowed `script` tag,
an allowed `b` tag and a link: the sanitized document keeps only allowed
tags. -/
theorem c1_body_html_sanitized_witness :
    ("b") ∈ tagNames ((Comment.setBody
        (fun _ => [.openTag ("script"), .openTag ("b"),
                   .text ("https://x.example"), .closeTag ("b"),
                   .closeTag ("script")])
        { id := 1 } ("hello")).body_html.getD []) ∧
    ("b") ∈ allowed_tags := by
  exact ⟨by decide,
    (c1_body_html_sanitized
      (fun _ => [.openTag ("script"), .openTag ("b"),
                 .text ("https://x.example"), .closeTag ("b"),
                 .closeTag ("script")])
      { id := 1 } ("hello")).2.2.2 ("b") (by decide)⟩

/-- Claim C5: `PendingEmail.already_in_queue(email, talk)` is true exactly
when some pending-email row carries this talk's id and this email, so a
notification keyed by `(email, talk)` can be deduplicated before enqueue. -/
theorem c5_already_in_queue_iff :
    ∀ (db : DB) (email : String) (talk : Talk),
      PendingEmail.already_in_queue db email talk = true ↔
        ∃ p ∈ db.pending_emails,
          p.talk_id = some talk.id ∧ p.email = some email := by
  intro db email talk
  simp only [PendingEmail.already_in_queue, gt_iff_lt, decide_eq_true_eq,
    List.length_pos_iff_exists_mem, List.mem_filter, beq_iff_eq]
  constructor
  · rintro ⟨p, ⟨hp, htalk⟩, hmail⟩
    exact ⟨p, hp, htalk, hmail⟩
  · rintro ⟨p, hp, htalk, hmail⟩
    exact ⟨p, ⟨hp, htalk⟩, hmail⟩

/-- Claim C6: a user constructed with an email and no preset avatar hash gets
`avatar_hash = md5(email)`, and `gravatar` builds its URL from exactly that
hash. -/
theorem c6_avatar_hash_derivation :
    ∀ (md5hex : String → String) (u : User) (e : String),
      u.email = some e → u.avatar_hash = none →
      (User.init md5hex u).avatar_hash = some (md5hex e) ∧
      ∀ (isSecure : Bool) (size : Nat) (defaultIcon rating : String),
        User.gravatar md5hex isSecure (User.init md5hex u) size defaultIcon rating =
          some ((if isSecure then "https://secure.gravatar.com/avatar"
                 else "http://www.gravatar.com/avatar") ++ "/" ++ md5hex e ++
                "?s=" ++ toString size ++ "&d=" ++ defaultIcon ++ "&r=" ++ rating) := by
  intro md5hex u e hemail havatar
  have hinit : User.init md5hex u = { u with avatar_hash := some (md5hex e) } := by
    unfold User.init
    rw [hemail, havatar]
  refine ⟨by rw [hinit], ?_⟩
  intro isSecure size defaultIcon rating
  rw [hinit]
  show (pyOrStr (some (md5hex e)) (Option.map md5hex u.email)).map _ = _
  rw [hemail]
  show (pyOrStr (some (md5hex e)) (some (md5hex e))).map _ = _
  rw [pyOrStr, ite_self]
  rfl

/-- Witness for C6 at a concrete digest function and user. -/
theorem c6_avatar_hash_derivation_witness :
    (User.init (fun s => s ++ "!")
        { id := 1, email := some ("a@b.c") }).avatar_hash = some ("a@b.c!") ∧
    User.gravatar (fun s => s ++ "!") false
        (User.init (fun s => s ++ "!") { id := 1, email := some ("a@b.c") })
        100 ("identicon") ("g") =
      some ("http://www.gravatar.com/avatar/a@b.c!?s=100&d=identicon&r=g") := by
  have h := c6_avatar_hash_derivation (fun s => s ++ "!")
    { id := 1, email := some ("a@b.c") } ("a@b.c") rfl rfl
  exact ⟨h.1, h.2 false 100 ("identicon") ("g")⟩

theorem find?_user_by_id (us : List User) (u : User)
    (hnd : (us.map User.id).Nodup) (hu : u ∈ us) :
    us.find? (fun v => v.id == u.id) = some u := by
  induction us with
  | nil => cases hu
  | cons a rest ih =>
      simp only [List.map_cons, List.nodup_cons, List.mem_map] at hnd
      obtain ⟨hna, hrest⟩ := hnd
      rcases List.mem_cons.mp hu with rfl | hmem
      · exact List.find?_cons_of_pos _ (by simp)
      · have hne : (a.id == u.id) = false := by
          simp only [beq_eq_false_iff_ne, ne_eq]
          intro h
          exact hna ⟨u, hmem, h.symm⟩
        rw [List.find?_cons_of_neg _ (by simp [hne]), ih hrest hmem]

theorem serializerLoads_dumps (secret : String) (now issued expiration : Nat)
    (p : TokenPayload) (h : now ≤ issued + expiration) :
    serializerLoads secret now (serializerDumps secret issued expiration p) =
      some p := by
  unfold serializerLoads serializerDumps
  exact if_pos ⟨rfl, h⟩

theorem serializerLoads_invalid (secret : String) (now : Nat)
    (tok : SignedToken)
    (hbad : tok.mac ≠ macOf secret tok.data tok.expiresAt ∨ tok.expiresAt < now) :
    serializerLoads secret now tok = none := by
  unfold serializerLoads
  rw [if_neg]
  rintro ⟨hmac, hexp⟩
  rcases hbad with h | h
  · exact h hmac
  · omega

/-- Claim C3: an API token freshly issued for a stored user validates back to
that user at any time before its expiry; and `validate_api_token` yields
`None` for every token whose signature does not verify under the secret key
or that has expired. -/
theorem c3_api_token_round_trip :
    (∀ (db : DB) (secret : String) (u : User) (issued e now : Nat),
        DBWf db → u ∈ db.users → now ≤ issued + e →
        User.validate_api_token db secret now
          (User.get_api_token secret issued u e) = some u) ∧
    (∀ (db : DB) (secret : String) (now : Nat) (tok : SignedToken),
        tok.mac ≠ macOf secret tok.data tok.expiresAt ∨ tok.expiresAt < now →
        User.validate_api_token db secret now tok = none) := by
  constructor
  · intro db secret u issued e now hwf hu hnow
    have hidpos : 0 < u.id := hwf.userIdsPos u hu
    unfold User.validate_api_token User.get_api_token
    rw [serializerLoads_dumps secret now issued e _ hnow]
    have hne : (u.id != 0) = true := by
      simp only [bne_iff_ne, ne_eq]
      omega
    show (if (u.id != 0) = true then db.getUser u.id else none) = some u
    rw [if_pos hne]
    exact find?_user_by_id db.users u hwf.userIdsNodup hu
  · intro db secret now tok hbad
    unfold User.validate_api_token
    rw [serializerLoads_invalid secret now tok hbad]

/-- Witness for C3: a fresh token for the sole stored user validates back to
it, and an expired token validates to `None`. -/
theorem c3_api_token_round_trip_witness :
    User.validate_api_token { users := [{ id := 1 }] } ("key") 10
      (User.get_api_token ("key") 0 { id := 1 } 300) = some { id := 1 } ∧
    User.validate_api_token { users := [{ id := 1 }] } ("key") 10
      { data := { user := some 1 }, expiresAt := 3, mac := 0 } = none := by
  constructor
  · exact c3_api_token_round_trip.1 { users := [{ id := 1 }] } ("key")
      { id := 1 } 0 300 10
      ⟨by decide, by decide, by decide, by decide⟩ (by decide) (by decide)
  · exact c3_api_token_round_trip.2 { users := [{ id := 1 }] } ("key") 10
      { data := { user := some 1 }, expiresAt := 3, mac := 0 }
      (Or.inr (by decide))

/-- Claim C4: `Comment.for_moderation()` returns exactly the unapproved
comments; `User.for_moderation(admin)` returns all of them for an admin user
asked with `admin=True`, and otherwise exactly the unapproved comments lying
on talks authored by the user. -/
theorem c4_for_moderation_spec :
    (∀ (db : DB) (c : Comment),
        c ∈ Comment.for_moderation db ↔
          c ∈ db.comments ∧ c.approved = some false) ∧
    (∀ (db : DB) (u : User) (admin : Bool) (c : Comment),
        admin = true → u.is_admin = some true →
        (c ∈ User.for_moderation db u admin ↔
          c ∈ db.comments ∧ c.approved = some false)) ∧
    (∀ (db : DB) (u : User) (admin : Bool) (c : Comment),
        ¬ (admin = true ∧ u.is_admin = some true) →
        (c ∈ User.for_moderation db u admin ↔
          c ∈ db.comments ∧ c.approved = some false ∧
            ∃ t ∈ db.talks, c.talk_id = some t.id ∧ t.user_id = some u.id)) := by
  have base : ∀ (db : DB) (c : Comment),
      c ∈ Comment.for_moderation db ↔
        c ∈ db.comments ∧ c.approved = some false := by
    intro db c
    simp [Comment.for_moderation, List.mem_filter]
  refine ⟨base, ?_, ?_⟩
  · intro db u admin c hadmin his
    have hcond : (admin && (u.is_admin == some true)) = true := by
      simp [hadmin, his]
    rw [User.for_moderation, if_pos hcond]
    exact base db c
  · intro db u admin c hcond
    have hcond' : (admin && (u.is_admin == some true)) = false := by
      rcases Bool.eq_false_or_eq_true admin with h | h
      · have : u.is_admin ≠ some true := fun hh => hcond ⟨h, hh⟩
        simp [h, this]
      · simp [h]
    rw [User.for_moderation, if_neg (by simp [hcond'])]
    simp only [List.mem_map, List.mem_filter, List.mem_flatMap,
      List.mem_filterMap]
    constructor
    · rintro ⟨⟨cp, t⟩, ⟨⟨⟨cq, hcq, tq, htq, hif⟩, htu⟩, happ⟩, rfl⟩
      by_cases h : cq.talk_id = some tq.id
      · rw [if_pos h] at hif
        have hpair := Option.some.inj hif
        have hc2 : cq = cp := congrArg Prod.fst hpair
        have ht2 : tq = t := congrArg Prod.snd hpair
        cases hc2
        cases ht2
        exact ⟨hcq, by simpa using happ, _, htq, h, by simpa using htu⟩
      · rw [if_neg h] at hif
        cases hif
    · rintro ⟨hc, happ, t, ht, htid, htu⟩
      refine ⟨⟨c, t⟩, ⟨⟨⟨c, hc, t, ht, by rw [if_pos htid]⟩, by simpa using htu⟩,
        by simpa using happ⟩, rfl⟩

/-- Witness for C4 on a one-talk, one-comment database: the admin branch and
the author-join branch both characterize the unapproved comment. -/
theorem c4_for_moderation_spec_witness :
    (true = true ∧ ({ id := 1, is_admin := some true } : User).is_admin = some true) ∧
    (({ id := 9, talk_id := some 5 } : Comment) ∈
        User.for_moderation
          { talks := [{ id := 5, user_id := some 2 }],
            comments := [{ id := 9, talk_id := some 5 }] }
          { id := 1, is_admin := some true } true ↔
      ({ id := 9, talk_id := some 5 } : Comment) ∈
        ({ talks := [{ id := 5, user_id := some 2 }],
           comments := [{ id := 9, talk_id := some 5 }] } : DB).comments ∧
      ({ id := 9, talk_id := some 5 } : Comment).approved = some false) ∧
    (({ id := 9, talk_id := some 5 } : Comment) ∈
        User.for_moderation
          { talks := [{ id := 5, user_id := some 2 }],
            comments := [{ id := 9, talk_id := some 5 }] }
          { id := 2 } false ↔
      ({ id := 9, talk_id := some 5 } : Comment) ∈
        ({ talks := [{ id := 5, user_id := some 2 }],
           comments := [{ id := 9, talk_id := some 5 }] } : DB).comments ∧
      ({ id := 9, talk_id := some 5 } : Comment).approved = some false ∧
      ∃ t ∈ ({ talks := [{ id := 5, user_id := some 2 }],
               comments := [{ id := 9, talk_id := some 5 }] } : DB).talks,
        ({ id := 9, talk_id := some 5 } : Comment).talk_id = some t.id ∧
        t.user_id = some ({ id := 2 } : User).id) := by
  refine ⟨⟨rfl, rfl⟩, ?_, ?_⟩
  · exact c4_for_moderation_spec.2.1 _ _ _ _ rfl rfl
  · exact c4_for_moderation_spec.2.2 _ _ _ _ (by decide)

/-- Claim C2: `Talk.unsubscribe_user` returns `(None, None)` and leaves the
database untouched when the token fails to load (bad signature or expired),
when the payload's talk id or email is missing (untruthy: absent, `0`, or
empty), or when no talk has the payload's id; otherwise it flips
`notify=False` on exactly the comments of that talk whose `author_email`
equals the payload email and returns the `(talk, email)` pair. -/
theorem c2_unsubscribe_user_spec :
    ∀ (db : DB) (secret : String) (now : Nat) (tok : SignedToken),
      (serializerLoads secret now tok = none →
        Talk.unsubscribe_user db secret now tok = ((none, none), db)) ∧
      (∀ data : TokenPayload, serializerLoads secret now tok = some data →
        ¬ pyTruthyNat data.talk = true ∨ ¬ pyTruthyStr data.email = true →
        Talk.unsubscribe_user db secret now tok = ((none, none), db)) ∧
      (∀ data : TokenPayload, serializerLoads secret now tok = some data →
        pyTruthyNat data.talk = true → pyTruthyStr data.email = true →
        db.getTalk (data.talk.getD 0) = none →
        Talk.unsubscribe_user db secret now tok = ((none, none), db)) ∧
      (∀ (data : TokenPayload) (talk : Talk),
        serializerLoads secret now tok = some data →
        pyTruthyNat data.talk = true → pyTruthyStr data.email = true →
        db.getTalk (data.talk.getD 0) = some talk →
        (Talk.unsubscribe_user db secret now tok).1 = (some talk, data.email) ∧
        (Talk.unsubscribe_user db secret now tok).2.users = db.users ∧
        (Talk.unsubscribe_user db secret now tok).2.talks = db.talks ∧
        (Talk.unsubscribe_user db secret now tok).2.pending_emails =
          db.pending_emails ∧
        ∀ i : Nat,
          (Talk.unsubscribe_user db secret now tok).2.comments[i]? =
            (db.comments[i]?).map fun c =>
              if c.talk_id = some talk.id ∧ c.author_email = data.email then
                { c with notify := some false }
              else c) := by
  intro db secret now tok
  refine ⟨?_, ?_, ?_, ?_⟩
  · intro hload
    unfold Talk.unsubscribe_user
    rw [hload]
  · intro data hload hfalsy
    unfold Talk.unsubscribe_user
    rw [hload]
    dsimp only
    rw [if_pos hfalsy]
  · intro data hload htr1 htr2 hget
    unfold Talk.unsubscribe_user
    rw [hload]
    dsimp only
    rw [if_neg (by simp [htr1, htr2]), hget]
  · intro data talk hload htr1 htr2 hget
    unfold Talk.unsubscribe_user
    rw [hload]
    dsimp only
    rw [if_neg (by simp [htr1, htr2]), hget]
    refine ⟨rfl, rfl, rfl, rfl, ?_⟩
    intro i
    simp [List.getElem?_map]

/-- Witness for C2: a valid unsubscribe token for talk 1 and email `x@y`
silences exactly the matching comment and returns the pair. -/
theorem c2_unsubscribe_user_spec_witness :
    serializerLoads ("k") 0
      (Talk.get_unsubscribe_token ("k") 0 { id := 1 } ("x@y") 604800) =
        some { talk := some 1, email := some ("x@y") } ∧
    pyTruthyNat (some 1) = true ∧
    pyTruthyStr (some ("x@y")) = true ∧
    DB.getTalk
      { talks := [{ id := 1 }],
        comments := [{ id := 1, talk_id := some 1, author_email := some ("x@y") },
                     { id := 2, talk_id := some 1, author_email := some ("z@w") }] }
      ((some 1).getD 0) = some { id := 1 } ∧
    (Talk.unsubscribe_user
      { talks := [{ id := 1 }],
        comments := [{ id := 1, talk_id := some 1, author_email := some ("x@y") },
                     { id := 2, talk_id := some 1, author_email := some ("z@w") }] }
      ("k") 0
      (Talk.get_unsubscribe_token ("k") 0 { id := 1 } ("x@y") 604800)).1 =
      (some { id := 1 }, some ("x@y")) ∧
    (Talk.unsubscribe_user
      { talks := [{ id := 1 }],
        comments := [{ id := 1, talk_id := some 1, author_email := some ("x@y") },
                     { id := 2, talk_id := some 1, author_email := some ("z@w") }] }
      ("k") 0
      (Talk.get_unsubscribe_token ("k") 0 { id := 1 } ("x@y") 604800)).2.comments[0]? =
      some { id := 1, talk_id := some 1, author_email := some ("x@y"),
             notify := some false } ∧
    (Talk.unsubscribe_user
      { talks := [{ id := 1 }],
        comments := [{ id := 1, talk_id := some 1, author_email := some ("x@y") },
                     { id := 2, talk_id := some 1, author_email := some ("z@w") }] }
      ("k") 0
      (Talk.get_unsubscribe_token ("k") 0 { id := 1 } ("x@y") 604800)).2.comments[1]? =
      some { id := 2, talk_id := some 1, author_email := some ("z@w") } := by
  have h := (c2_unsubscribe_user_spec
    { talks := [{ id := 1 }],
      comments := [{ id := 1, talk_id := some 1, author_email := some ("x@y") },
                   { id := 2, talk_id := some 1, author_email := some ("z@w") }] }
    ("k") 0
    (Talk.get_unsubscribe_token ("k") 0 { id := 1 } ("x@y") 604800)).2.2.2
    { talk := some 1, email := some ("x@y") } { id := 1 }
    (by decide) (by decide) (by decide) (by decide)
  refine ⟨by decide, by decide, by decide, by decide, h.1, ?_, ?_⟩
  · rw [h.2.2.2.2 0]
    decide
  · rw [h.2.2.2.2 1]
    decide

theorem usersReachable_pairwise (us : List User) (h : UsersReachable us) :
    (∀ u ∈ us, u.email ≠ none ∧ u.username ≠ none) ∧
    List.Pairwise
      (fun a b => a.email ≠ b.email ∧ a.username ≠ b.username) us := by
  induction h with
  | nil => exact ⟨by simp, List.Pairwise.nil⟩
  | @insert us u us' hr hins ih =>
      unfold insertUser at hins
      by_cases h1 : u.email = none ∨ u.username = none
      · rw [if_pos h1] at hins
        cases hins
      · rw [if_neg h1] at hins
        by_cases h2 : (us.any fun v =>
            v.email == u.email || v.username == u.username || v.id == u.id) = true
        · rw [if_pos h2] at hins
          cases hins
        · rw [if_neg h2] at hins
          injection hins with hins
          subst hins
          push_neg at h1
          simp only [List.any_eq_true, Bool.or_eq_true, beq_iff_eq] at h2
          push_neg at h2
          constructor
          · intro w hw
            rcases List.mem_append.mp hw with hw | hw
            · exact ih.1 w hw
            · simp only [List.mem_singleton] at hw
              subst hw
              exact h1
          · rw [List.pairwise_append]
            refine ⟨ih.2, by simp, ?_⟩
            intro a ha b hb
            simp only [List.mem_singleton] at hb
            subst hb
            have := h2 a ha
            exact ⟨this.1.1, this.1.2⟩

/-- Claim C8: in any user table reachable through the schema's constraint
checks (`nullable=False`, `unique=True` on email and username), any two
distinct rows have different emails and different usernames, and both fields
are always present. -/
theorem c8_users_unique_nonnull :
    ∀ (us : List User), UsersReachable us →
      (∀ u ∈ us, u.email ≠ none ∧ u.username ≠ none) ∧
      ∀ (i j : Nat) (hi : i < us.length) (hj : j < us.length), i ≠ j →
        (us.get ⟨i, hi⟩).email ≠ (us.get ⟨j, hj⟩).email ∧
        (us.get ⟨i, hi⟩).username ≠ (us.get ⟨j, hj⟩).username := by
  intro us h
  obtain ⟨hnn, hpw⟩ := usersReachable_pairwise us h
  refine ⟨hnn, ?_⟩
  have hget := List.pairwise_iff_get.mp hpw
  intro i j hi hj hne
  rcases Nat.lt_or_ge i j with hlt | hge
  · exact hget ⟨i, hi⟩ ⟨j, hj⟩ hlt
  · have hlt : j < i := Nat.lt_of_le_of_ne hge (fun hh => hne hh.symm)
    have := hget ⟨j, hj⟩ ⟨i, hi⟩ hlt
    exact ⟨this.1.symm, this.2.symm⟩

/-- Witness for C8: a table built by two constraint-checked inserts has
distinct, present emails and usernames. -/
theorem c8_users_unique_nonnull_witness :
    UsersReachable
      [{ id := 1, email := some ("a@x"), username := some ("a") },
       { id := 2, email := some ("b@x"), username := some ("b") }] ∧
    (([{ id := 1, email := some ("a@x"), username := some ("a") },
       { id := 2, email := some ("b@x"), username := some ("b") }] :
        List User).get ⟨0, by decide⟩).email ≠
      (([{ id := 1, email := some ("a@x"), username := some ("a") },
         { id := 2, email := some ("b@x"), username := some ("b") }] :
          List User).get ⟨1, by decide⟩).email := by
  have hreach : UsersReachable
      [{ id := 1, email := some ("a@x"), username := some ("a") },
       { id := 2, email := some ("b@x"), username := some ("b") }] :=
    @UsersReachable.insert
      [{ id := 1, email := some ("a@x"), username := some ("a") }]
      { id := 2, email := some ("b@x"), username := some ("b") }
      [{ id := 1, email := some ("a@x"), username := some ("a") },
       { id := 2, email := some ("b@x"), username := some ("b") }]
      (@UsersReachable.insert []
        { id := 1, email := some ("a@x"), username := some ("a") }
        [{ id := 1, email := some ("a@x"), username := some ("a") }]
        UsersReachable.nil (by decide))
      (by decide)
  exact ⟨hreach,
    ((c8_users_unique_nonnull _ hreach).2 0 1 (by decide) (by decide)
      (by decide)).1⟩

theorem dictSet_mem (d : List (Option String × Option String))
    (k v : Option String) (kv : Option String × Option String)
    (h : kv ∈ dictSet d k v) : kv ∈ d ∨ kv = (k, v) := by
  unfold dictSet at h
  by_cases hmem : (d.any fun e => e.1 == k) = true
  · rw [if_pos hmem] at h
    rcases List.mem_map.mp h with ⟨e, he, hkv⟩
    by_cases hk : (e.1 == k) = true
    · rw [if_pos hk] at hkv
      exact Or.inr hkv.symm
    · rw [if_neg hk] at hkv
      exact Or.inl (hkv ▸ he)
  · rw [if_neg hmem] at h
    rcases List.mem_append.mp h with h | h
    · exact Or.inl h
    · exact Or.inr (List.mem_singleton.mp h)

theorem dictSet_keys_nodup (d : List (Option String × Option String))
    (k v : Option String) (h : (d.map Prod.fst).Nodup) :
    ((dictSet d k v).map Prod.fst).Nodup := by
  unfold dictSet
  by_cases hmem : (d.any fun e => e.1 == k) = true
  · rw [if_pos hmem]
    have : ((d.map fun e => if e.1 == k then (k, v) else e).map Prod.fst) =
        d.map Prod.fst := by
      rw [List.map_map]
      refine List.map_congr_left ?_
      intro e _
      by_cases hk : (e.1 == k) = true
      · simp only [Function.comp_apply, if_pos hk]
        exact (beq_iff_eq.mp hk).symm
      · simp only [Function.comp_apply, if_neg hk]
    rw [this]
    exact h
  · rw [if_neg hmem, List.map_append]
    rw [List.nodup_append]
    refine ⟨h, by simp, ?_⟩
    intro x hx
    simp only [List.map_cons, List.map_nil, List.mem_singleton]
    intro hxk
    subst hxk
    rcases List.mem_map.mp hx with ⟨e, he, hek⟩
    have : (e.1 == x) = true := by
      subst hek
      exact beq_self_eq_true _
    exact hmem (List.any_eq_true.mpr ⟨e, he, by rw [hek] at this ⊢; exact this⟩)

theorem notifFold_keys_nodup (db : DB) (self : Comment) (cs : List Comment)
    (acc : List (Option String × Option String))
    (h : (acc.map Prod.fst).Nodup) :
    (((cs.foldl (notifStep db self) acc)).map Prod.fst).Nodup := by
  induction cs generalizing acc with
  | nil => exact h
  | cons c rest ih =>
      refine ih (notifStep db self acc c) ?_
      unfold notifStep
      split
      · split
        · split
          · exact dictSet_keys_nodup _ _ _ h
          · exact h
        · split
          · exact dictSet_keys_nodup _ _ _ h
          · exact h
      · exact h

theorem notifFold_mem (db : DB) (self : Comment) (cs : List Comment)
    (acc : List (Option String × Option String))
    (kv : Option String × Option String)
    (h : kv ∈ cs.foldl (notifStep db self) acc) :
    kv ∈ acc ∨ ∃ comment, comment ∈ cs ∧
      comment.notify = some true ∧
      comment.author db ≠ ((comment.talk db).bind fun tt => tt.author db) ∧
      ((∃ a : User, comment.author db = some a ∧ self.author db ≠ some a ∧
          kv = (a.email, pyOrStr a.name a.username)) ∨
       (comment.author db = none ∧ self.author_email ≠ comment.author_email ∧
          kv = (comment.author_email, comment.author_name))) := by
  induction cs generalizing acc with
  | nil => exact Or.inl h
  | cons c rest ih =>
      rcases ih (notifStep db self acc c) h with hacc | ⟨comment, hmem, hrest⟩
      · unfold notifStep at hacc
        split at hacc
        · rename_i hguard
          split at hacc
          · rename_i a hauth
            split at hacc
            · rename_i hself
              rcases dictSet_mem _ _ _ _ hacc with h1 | h1
              · exact Or.inl h1
              · exact Or.inr ⟨c, List.mem_cons_self _ _, hguard.1, hguard.2,
                  Or.inl ⟨a, hauth, hself, h1⟩⟩
            · exact Or.inl hacc
          · rename_i hauth
            split at hacc
            · rename_i hself
              rcases dictSet_mem _ _ _ _ hacc with h1 | h1
              · exact Or.inl h1
              · exact Or.inr ⟨c, List.mem_cons_self _ _, hguard.1, hguard.2,
                  Or.inr ⟨hauth, hself, h1⟩⟩
            · exact Or.inl hacc
        · exact Or.inl hacc
      · exact Or.inr ⟨comment, List.mem_cons_of_mem _ hmem, hrest⟩

/-- Claim C9: the notification list has no duplicate email keys, and every
entry originates from some comment of the talk whose `notify` flag is set,
that is not authored by the talk's author, and that is neither `self`'s own
registered author (compared by identity) nor an anonymous commenter sharing
`self`'s `author_email`; registered entries carry the account email, anonymous
ones the comment's `author_email`. -/
theorem c9_notification_list_spec :
    ∀ (db : DB) (self : Comment),
      ((Comment.notification_list db self).map Prod.fst).Nodup ∧
      ∀ kv ∈ Comment.notification_list db self,
        ∃ t, self.talk db = some t ∧
          ∃ comment ∈ t.commentRows db,
            comment.notify = some true ∧
            comment.author db ≠ ((comment.talk db).bind fun tt => tt.author db) ∧
            ((∃ a : User, comment.author db = some a ∧ self.author db ≠ some a ∧
                kv = (a.email, pyOrStr a.name a.username)) ∨
             (comment.author db = none ∧
                self.author_email ≠ comment.author_email ∧
                kv = (comment.author_email, comment.author_name))) := by
  intro db self
  unfold Comment.notification_list
  cases htalk : self.talk db with
  | none => exact ⟨by simp, by simp⟩
  | some t =>
      constructor
      · exact notifFold_keys_nodup db self _ [] (by simp)
      · intro kv hkv
        rcases notifFold_mem db self _ [] kv hkv with h | ⟨comment, hmem, hrest⟩
        · cases h
        · exact ⟨t, rfl, comment, hmem, hrest⟩

/-- Witness for C9 on a two-comment talk: the anonymous entry for the other
commenter is in the list and the theorem yields its originating comment. -/
theorem c9_notification_list_spec_witness :
    (some ("you@x"), some ("You")) ∈ Comment.notification_list
      { users := [{ id := 1, email := some ("o@x"), username := some ("o") }],
        talks := [{ id := 1, user_id := some 1 }],
        comments :=
          [{ id := 1, talk_id := some 1, author_email := some ("me@x") },
           { id := 2, talk_id := some 1, author_email := some ("you@x"),
             author_name := some ("You") }] }
      { id := 1, talk_id := some 1, author_email := some ("me@x") } ∧
    ∃ t, Comment.talk
        { users := [{ id := 1, email := some ("o@x"), username := some ("o") }],
          talks := [{ id := 1, user_id := some 1 }],
          comments :=
            [{ id := 1, talk_id := some 1, author_email := some ("me@x") },
             { id := 2, talk_id := some 1, author_email := some ("you@x"),
               author_name := some ("You") }] }
        { id := 1, talk_id := some 1, author_email := some ("me@x") } = some t ∧
      ∃ comment ∈ t.commentRows
          { users := [{ id := 1, email := some ("o@x"), username := some ("o") }],
            talks := [{ id := 1, user_id := some 1 }],
            comments :=
              [{ id := 1, talk_id := some 1, author_email := some ("me@x") },
               { id := 2, talk_id := some 1, author_email := some ("you@x"),
                 author_name := some ("You") }] },
        comment.notify = some true ∧
        comment.author
            { users := [{ id := 1, email := some ("o@x"), username := some ("o") }],
              talks := [{ id := 1, user_id := some 1 }],
              comments :=
                [{ id := 1, talk_id := some 1, author_email := some ("me@x") },
                 { id := 2, talk_id := some 1, author_email := some ("you@x"),
                   author_name := some ("You") }] } ≠
          ((comment.talk
              { users := [{ id := 1, email := some ("o@x"), username := some ("o") }],
                talks := [{ id := 1, user_id := some 1 }],
                comments :=
                  [{ id := 1, talk_id := some 1, author_email := some ("me@x") },
                   { id := 2, talk_id := some 1, author_email := some ("you@x"),
                     author_name := some ("You") }] }).bind fun tt =>
            tt.author
              { users := [{ id := 1, email := some ("o@x"), username := some ("o") }],
                talks := [{ id := 1, user_id := some 1 }],
                comments :=
                  [{ id := 1, talk_id := some 1, author_email := some ("me@x") },
                   { id := 2, talk_id := some 1, author_email := some ("you@x"),
                     author_name := some ("You") }] }) ∧
        ((∃ a : User, comment.author
              { users := [{ id := 1, email := some ("o@x"), username := some ("o") }],
                talks := [{ id := 1, user_id := some 1 }],
                comments :=
                  [{ id := 1, talk_id := some 1, author_email := some ("me@x") },
                   { id := 2, talk_id := some 1, author_email := some ("you@x"),
                     author_name := some ("You") }] } = some a ∧
            Comment.author
                { users := [{ id := 1, email := some ("o@x"), username := some ("o") }],
                  talks := [{ id := 1, user_id := some 1 }],
                  comments :=
                    [{ id := 1, talk_id := some 1, author_email := some ("me@x") },
                     { id := 2, talk_id := some 1, author_email := some ("you@x"),
                       author_name := some ("You") }] }
                { id := 1, talk_id := some 1, author_email := some ("me@x") } ≠
              some a ∧
            ((some ("you@x"), some ("You")) : Option String × Option String) =
              (a.email, pyOrStr a.name a.username)) ∨
         (comment.author
              { users := [{ id := 1, email := some ("o@x"), username := some ("o") }],
                talks := [{ id := 1, user_id := some 1 }],
                comments :=
                  [{ id := 1, talk_id := some 1, author_email := some ("me@x") },
                   { id := 2, talk_id := some 1, author_email := some ("you@x"),
                     author_name := some ("You") }] } = none ∧
          ({ id := 1, talk_id := some 1, author_email := some ("me@x") } :
              Comment).author_email ≠ comment.author_email ∧
          ((some ("you@x"), some ("You")) : Option String × Option String) =
            (comment.author_email, comment.author_name))) := by
  exact ⟨by decide, (c9_notification_list_spec _ _).2 _ (by decide)⟩
